import Mathlib

/-!
Shallow embedding of the vertex-batching accumulator (`BatchTarget`) and the
stencil-settings translator (`StencilSettings`) of this SFML fork, together
with theorems settling the frozen claims about them.

Machine floats of the original (vertex positions, transforms) are modelled
with integers: none of the claims depends on floating-point rounding, only on
which vertices are appended where and which affine map is applied.
-/

namespace SFML

/-- 2D vector (models `sf::Vector2f` positions / texture coordinates). -/
structure Vec2 where
  x : Int
  y : Int
deriving DecidableEq, Repr, Inhabited

/-- Affine part of `sf::Transform` (3x3 matrix acting on a 2D point). -/
structure Transform where
  a00 : Int
  a01 : Int
  a02 : Int
  a10 : Int
  a11 : Int
  a12 : Int
deriving DecidableEq, Repr, Inhabited

/-- The identity transform (`sf::Transform()`). -/
def Transform.identity : Transform := ⟨1, 0, 0, 0, 1, 0⟩

/-- `transform * point` (affine application). -/
def Transform.applyTo (t : Transform) (p : Vec2) : Vec2 :=
  ⟨t.a00 * p.x + t.a01 * p.y + t.a02, t.a10 * p.x + t.a11 * p.y + t.a12⟩

/-- `sf::Vertex`: position, color, texture coordinate. Color is an opaque
value compared by equality. -/
structure Vertex where
  position : Vec2
  color : Nat
  texCoords : Vec2
deriving DecidableEq, Repr, Inhabited

/-- `sf::PrimitiveType`. -/
inductive PrimitiveType where
  | Points
  | Lines
  | LinesStrip
  | Triangles
  | TrianglesStrip
  | TrianglesFan
  | Quads
deriving DecidableEq, Repr, Inhabited

/-- `sf::RenderStates`, restricted to the fields `BatchTarget` reads:
blend mode (opaque, compared by equality), transform, texture (nullable
pointer, `some h` carries `getNativeHandle()`), shader (opaque, never
compared). -/
structure RenderStates where
  blendMode : Nat
  transform : Transform
  texture : Option Nat
  shader : Option Nat
deriving DecidableEq, Repr, Inhabited

/-- `states.texture ? states.texture->getNativeHandle() : 0`. -/
def textureId (texture : Option Nat) : Nat :=
  match texture with
  | some h => h
  | none => 0

/-! ## StencilSettings -/

/-- `StencilSettings::Operation`. -/
inductive StencilSettings.Operation where
  | Keep
  | Zero
  | Replace
  | IncrementClamp
  | DecrementClamp
  | Invert
deriving DecidableEq, Repr, Inhabited

/-- `StencilSettings::Function`. -/
inductive StencilSettings.Function where
  | Never
  | Less
  | LessEqual
  | Greater
  | GreaterEqual
  | Equal
  | NotEqual
  | Always
deriving DecidableEq, Repr, Inhabited

/-- `sf::StencilSettings`. -/
structure StencilSettings where
  stencilOperation : StencilSettings.Operation
  stencilFunction : StencilSettings.Function
  stencilReference : Nat
  alphaFunction : StencilSettings.Function
  alphaReference : Nat
  drawSelf : Bool
deriving DecidableEq, Repr, Inhabited

/-! OpenGL constants used by the translation tables. -/

def GL_ZERO : Nat := 0
def GL_KEEP : Nat := 0x1E00
def GL_REPLACE : Nat := 0x1E01
def GL_INCR : Nat := 0x1E02
def GL_DECR : Nat := 0x1E03
def GL_INVERT : Nat := 0x150A
def GL_NEVER : Nat := 0x0200
def GL_LESS : Nat := 0x0201
def GL_EQUAL : Nat := 0x0202
def GL_LEQUAL : Nat := 0x0203
def GL_GREATER : Nat := 0x0204
def GL_NOTEQUAL : Nat := 0x0205
def GL_GEQUAL : Nat := 0x0206
def GL_ALWAYS : Nat := 0x0207

/-- `StencilSettings::translateOperation` (StencilSettings.cpp). -/
def StencilSettings.translateOperation : StencilSettings.Operation → Nat
  | .Keep => GL_KEEP
  | .Zero => GL_ZERO
  | .Replace => GL_REPLACE
  | .IncrementClamp => GL_INCR
  | .DecrementClamp => GL_INCR
  | .Invert => GL_INVERT

/-- `StencilSettings::translateFunction` (StencilSettings.cpp). -/
def StencilSettings.translateFunction : StencilSettings.Function → Nat
  | .Never => GL_NEVER
  | .Less => GL_EQUAL
  | .LessEqual => GL_LEQUAL
  | .Greater => GL_GREATER
  | .GreaterEqual => GL_GEQUAL
  | .Equal => GL_EQUAL
  | .NotEqual => GL_NOTEQUAL
  | .Always => GL_ALWAYS

/-- `operator ==(const StencilSettings&, const StencilSettings&)`. -/
def StencilSettings.eq (left right : StencilSettings) : Bool :=
  (left.stencilOperation == right.stencilOperation) &&
  (left.stencilFunction == right.stencilFunction) &&
  (left.stencilReference == right.stencilReference) &&
  (left.alphaFunction == right.alphaFunction) &&
  (left.alphaReference == right.alphaReference)

/-- `operator !=(const StencilSettings&, const StencilSettings&)`. -/
def StencilSettings.ne (left right : StencilSettings) : Bool :=
  !(StencilSettings.eq left right)

/-! ## BatchTarget -/

/-- The `BatchTarget` state: its own members (`m_hasDrawnSomething`,
`m_viewWasUsed`, `m_cachedTexture`, `m_cachedPrimitiveType`, `m_vertexArray`)
plus the pieces of the inherited `RenderTarget` state it reads and writes:
the render cache's `viewChanged`, `lastTextureId` and `lastBlendMode` fields
and the target's own current view (`getView()`, an opaque value). -/
structure BatchTarget where
  hasDrawnSomething : Bool
  viewWasUsed : Bool
  cacheViewChanged : Bool
  cacheLastTextureId : Nat
  cacheLastBlendMode : Nat
  cachedTexture : Option Nat
  cachedPrimitiveType : PrimitiveType
  vertexArray : List Vertex
  view : Nat
deriving DecidableEq, Repr, Inhabited

/-- `BatchTarget::clear`: resets `m_hasDrawnSomething`, nulls the cached
texture and empties the vertex array; nothing else is touched. -/
def BatchTarget.clear (s : BatchTarget) : BatchTarget :=
  { s with hasDrawnSomething := false, cachedTexture := none, vertexArray := [] }

/-- `BatchTarget::clearView`: drops the view-in-use flag and any pending
view declaration. -/
def BatchTarget.clearView (s : BatchTarget) : BatchTarget :=
  { s with viewWasUsed := false, cacheViewChanged := false }

/-- `BatchTarget()`: `clear(); initialize(); clearView();`. `initialize`
belongs to the external `RenderTarget` base; the inherited cache fields it
leaves behind (`lastTextureId`, `lastBlendMode`), the initial view and the
indeterminate `m_cachedPrimitiveType` are parameters, since `BatchTarget`
itself never initializes them. -/
def mkBatchTarget (initTexId initBlend view0 : Nat) (ty0 : PrimitiveType) : BatchTarget :=
  BatchTarget.clearView (BatchTarget.clear
    { hasDrawnSomething := false
      viewWasUsed := false
      cacheViewChanged := false
      cacheLastTextureId := initTexId
      cacheLastBlendMode := initBlend
      cachedTexture := none
      cachedPrimitiveType := ty0
      vertexArray := []
      view := view0 })

/-- The composite-to-simple mapping at the top of
`BatchTarget::draw(const Vertex*, ...)`: `LinesStrip -> Lines`,
`TrianglesStrip -> Triangles`, `TrianglesFan -> Triangles`, everything
else unchanged. -/
def decomposite (ty : PrimitiveType) : PrimitiveType :=
  match ty with
  | .LinesStrip => .Lines
  | .TrianglesStrip => .Triangles
  | .TrianglesFan => .Triangles
  | t => t

/-- `transformedVertex.position = states.transform * transformedVertex.position`. -/
def transformVertex (tf : Transform) (v : Vertex) : Vertex :=
  { v with position := tf.applyTo v.position }

/-- The extra vertices pushed before vertex `i` inside the loop of
`BatchTarget::draw(const Vertex*, ...)`: for `LinesStrip` with `i > 0` a copy
of the last stored vertex; for `TrianglesStrip` with `i > 2` copies of the
two last stored vertices; for `TrianglesFan` with `i > 2` copies of the first
vertex stored for this call and the last stored vertex. Out-of-range reads
(impossible on the paths the loop takes) yield `default`. -/
def dupVertices (originalType : PrimitiveType) (i : Nat) (fvii : Option Nat)
    (arr : List Vertex) : List Vertex :=
  if originalType = PrimitiveType.LinesStrip ∧ 0 < i then
    [arr.getD (arr.length - 1) default]
  else if originalType = PrimitiveType.TrianglesStrip ∧ 2 < i then
    [arr.getD (arr.length - 2) default, arr.getD (arr.length - 1) default]
  else if originalType = PrimitiveType.TrianglesFan ∧ 2 < i then
    [arr.getD (fvii.getD 0) default, arr.getD (arr.length - 1) default]
  else []

/-- `if (firstVectorInsertedIndex == -1) firstVectorInsertedIndex = m_vertexArray.size() - 1;`
(`none` models the `-1` sentinel; the update runs after the push of vertex `i`). -/
def updateFvii (fvii : Option Nat) (arr2 : List Vertex) : Option Nat :=
  match fvii with
  | none => some (arr2.length - 1)
  | some f => some f

/-- The `for (i = 0; i < vertexCount; i++)` loop of
`BatchTarget::draw(const Vertex*, ...)`: push the duplicated vertices for
composite types, then the transformed input vertex, then record the first
inserted index. -/
def appendLoop (originalType : PrimitiveType) (tf : Transform) :
    List Vertex → Nat → Option Nat → List Vertex → List Vertex
  | [], _, _, arr => arr
  | v :: rest, i, fvii, arr =>
    appendLoop originalType tf rest (i + 1)
      (updateFvii fvii (arr ++ dupVertices originalType i fvii arr ++ [transformVertex tf v]))
      (arr ++ dupVertices originalType i fvii arr ++ [transformVertex tf v])

/-- `BatchTarget::draw(const Vertex*, std::size_t, PrimitiveType, const RenderStates&)`,
the submission into the accumulator. A failed `assert` (the StateConflict
contract violation) is modelled by `none`. The asserts fire, in source order,
when the view changed after the first submission, the decomposed primitive
type differs, the texture handle differs, or the blend mode differs from the
render cache's `lastBlendMode`. On the first submission the code records the
view usage, the texture (pointer and id) and the decomposed primitive type —
and nothing else — exactly as the source does. -/
def submit (s : BatchTarget) (vertices : List Vertex) (ty : PrimitiveType)
    (states : RenderStates) : Option BatchTarget :=
  if s.hasDrawnSomething then
    if s.cacheViewChanged then none
    else if decomposite ty ≠ s.cachedPrimitiveType then none
    else if textureId states.texture ≠ s.cacheLastTextureId then none
    else if s.cacheLastBlendMode ≠ states.blendMode then none
    else some { s with
      vertexArray := appendLoop ty states.transform vertices 0 none s.vertexArray }
  else
    some { s with
      hasDrawnSomething := true
      viewWasUsed := if s.cacheViewChanged then true else s.viewWasUsed
      cacheViewChanged := false
      cachedTexture := states.texture
      cacheLastTextureId := textureId states.texture
      cachedPrimitiveType := decomposite ty
      vertexArray := appendLoop ty states.transform vertices 0 none s.vertexArray }

/-- One call recorded against the external rendering surface:
`draw(vertexPointer, count, category, renderState)`. -/
structure DrawCall where
  vertices : List Vertex
  count : Nat
  ty : PrimitiveType
  states : RenderStates
deriving DecidableEq, Repr, Inhabited

/-- The external rendering surface (`RenderTarget`) as the replay sees it:
its current view, its default view (both opaque values) and the trace of
draw calls issued to it. -/
structure RTarget where
  view : Nat
  defaultView : Nat
  drawCalls : List DrawCall
deriving DecidableEq, Repr, Inhabited

/-- `BatchTarget::draw(RenderTarget&, RenderStates)`, the replay: back up the
target's view; set it to the batch's own view if one was used, else to the
target's default view; overlay the cached texture and the render cache's
blend mode onto the incoming states; issue one draw of the whole vertex
array; restore the backup view only when `m_viewWasUsed`. -/
def replay (s : BatchTarget) (target : RTarget) (states : RenderStates) : RTarget :=
  let backupView := target.view
  let target1 := { target with
    view := if s.viewWasUsed then s.view else target.defaultView }
  let overlaid := { states with texture := s.cachedTexture, blendMode := s.cacheLastBlendMode }
  let target2 := { target1 with
    drawCalls := target1.drawCalls
      ++ [⟨s.vertexArray, s.vertexArray.length, s.cachedPrimitiveType, overlaid⟩] }
  if s.viewWasUsed then { target2 with view := backupView } else target2

/-! ## Spec-side definitions (refinement targets, written from the claims'
wording, to be compared with what the source-embedded functions produce) -/

/-- The consecutive pairs (a0,a1),(a1,a2),... of a list. -/
def consecPairs {α : Type} : List α → List (α × α)
  | a :: b :: rest => (a, b) :: consecPairs (b :: rest)
  | _ => []

/-- The flat vertex list of the triangles (w0,p.1,p.2) for each pair `p`. -/
def triangleList (w0 : Vertex) : List (Vertex × Vertex) → List Vertex
  | [] => []
  | p :: rest => w0 :: p.1 :: p.2 :: triangleList w0 rest

/-- The stream the TriangleFan claim expects for transformed input vertices
w0,w1,...,w_N-1: the triangles (w0,w1,w2),(w0,w2,w3),...,(w0,w_N-2,w_N-1),
each sharing the first vertex as apex. -/
def fanSpec : List Vertex → List Vertex
  | w0 :: tail => triangleList w0 (consecPairs tail)
  | [] => []

/-- Triangle `k` of a stored stream (the vertices at indices 3k, 3k+1, 3k+2)
is complete and contains vertices from both sides of `boundary`: at least one
index below it and at least one at or above it. -/
def triangleSpans (boundary total k : Nat) : Prop :=
  3 * k + 2 < total ∧ 3 * k < boundary ∧ boundary ≤ 3 * k + 2

instance (boundary total k : Nat) : Decidable (triangleSpans boundary total k) :=
  inferInstanceAs (Decidable (_ ∧ _ ∧ _))

/-! ## Concrete states used by the evaluation theorems and witnesses -/

/-- A concrete vertex at x-coordinate `n`. -/
def exVertex (n : Int) : Vertex := ⟨⟨n, 0⟩, 0, ⟨0, 0⟩⟩

/-- Concrete render states: given blend mode and texture, identity transform,
no shader. -/
def exStates (blend : Nat) (tex : Option Nat) : RenderStates :=
  ⟨blend, Transform.identity, tex, none⟩

/-- A fresh `BatchTarget` whose inherited cache ids and view are all zero. -/
def exBatch : BatchTarget := mkBatchTarget 0 0 0 .Points

/-- The accumulator after one Triangles submission and no view declaration:
`m_viewWasUsed` is false. -/
def afterPlainSubmit : BatchTarget :=
  (submit exBatch [exVertex 1, exVertex 2, exVertex 3] .Triangles (exStates 0 none)).getD exBatch

/-- The accumulator after a first submission carrying blend mode 1, starting
from an inherited render cache holding blend mode 0. -/
def afterBlendOneSubmit : BatchTarget :=
  (submit exBatch [exVertex 1] .Triangles (exStates 1 none)).getD exBatch

/-- Accumulator after a first submission with texture handle 7 and blend
mode 0 (matching the inherited cache). -/
def afterTex7 : BatchTarget :=
  (submit exBatch [exVertex 1] .Triangles (exStates 0 (some 7))).getD exBatch

/-- Accumulator after a second identical texture-7 submission. -/
def afterTex7Twice : BatchTarget :=
  (submit afterTex7 [exVertex 2] .Triangles (exStates 0 (some 7))).getD exBatch

/-- Accumulator after a first submission with texture handle 7 and blend
mode 1 (differing from the inherited cache value 0). -/
def afterTex7Blend1 : BatchTarget :=
  (submit exBatch [exVertex 1] .Triangles (exStates 1 (some 7))).getD exBatch

/-- Accumulator after a 4-vertex TriangleFan submission into a fresh cycle. -/
def fanWitnessBatch : BatchTarget :=
  (submit exBatch [exVertex 1, exVertex 2, exVertex 3, exVertex 4] .TrianglesFan
    (exStates 0 none)).getD exBatch

/-- Accumulator after a degenerate 1-vertex TriangleStrip submission. -/
def stripA : BatchTarget :=
  (submit exBatch [exVertex 1] .TrianglesStrip (exStates 0 none)).getD exBatch

/-- Accumulator after the 1-vertex strip followed by a 3-vertex strip. -/
def stripAB : BatchTarget :=
  (submit stripA [exVertex 2, exVertex 3, exVertex 4] .TrianglesStrip
    (exStates 0 none)).getD exBatch

/-- Accumulator after a proper 3-vertex TriangleStrip submission. -/
def alignA : BatchTarget :=
  (submit exBatch [exVertex 1, exVertex 2, exVertex 3] .TrianglesStrip
    (exStates 0 none)).getD exBatch

/-- Accumulator after two consecutive proper 3-vertex TriangleStrip
submissions. -/
def alignAB : BatchTarget :=
  (submit alignA [exVertex 4, exVertex 5, exVertex 6] .TrianglesStrip
    (exStates 0 none)).getD exBatch

end SFML

namespace SFML

/-! ## Helper lemmas -/

/-- Unfolding one loop iteration. -/
theorem appendLoop_cons (ty : PrimitiveType) (tf : Transform) (v : Vertex)
    (rest : List Vertex) (i : Nat) (fvii : Option Nat) (arr : List Vertex) :
    appendLoop ty tf (v :: rest) i fvii arr
      = appendLoop ty tf rest (i + 1)
          (updateFvii fvii (arr ++ dupVertices ty i fvii arr ++ [transformVertex tf v]))
          (arr ++ dupVertices ty i fvii arr ++ [transformVertex tf v]) := rfl

/-- For the first three fan vertices no duplication happens. -/
theorem dupVertices_fan_small (i : Nat) (h : i ≤ 2) (fvii : Option Nat)
    (arr : List Vertex) :
    dupVertices .TrianglesFan i fvii arr = [] := by
  simp [dupVertices]
  omega

/-- From the fourth fan vertex on, the first-inserted and last vertices are
duplicated. -/
theorem dupVertices_fan_big (i f : Nat) (h : 2 < i) (arr : List Vertex) :
    dupVertices .TrianglesFan i (some f) arr
      = [arr.getD f default, arr.getD (arr.length - 1) default] := by
  simp [dupVertices, h]

/-- For the first three strip vertices no duplication happens. -/
theorem dupVertices_strip_small (i : Nat) (h : i ≤ 2) (fvii : Option Nat)
    (arr : List Vertex) :
    dupVertices .TrianglesStrip i fvii arr = [] := by
  simp [dupVertices]
  omega

/-- From the fourth strip vertex on, the two last vertices are duplicated. -/
theorem dupVertices_strip_big (i : Nat) (h : 2 < i) (fvii : Option Nat)
    (arr : List Vertex) :
    dupVertices .TrianglesStrip i fvii arr
      = [arr.getD (arr.length - 2) default, arr.getD (arr.length - 1) default] := by
  simp [dupVertices, h]

/-- Whatever branch `submit` takes, the resulting vertex array is the loop
applied to the previous one. -/
theorem submit_vertexArray {s s' : BatchTarget} {vs : List Vertex}
    {ty : PrimitiveType} {st : RenderStates} (h : submit s vs ty st = some s') :
    s'.vertexArray = appendLoop ty st.transform vs 0 none s.vertexArray := by
  unfold submit at h
  split at h
  · split at h
    · exact Option.noConfusion h
    · split at h
      · exact Option.noConfusion h
      · split at h
        · exact Option.noConfusion h
        · split at h
          · exact Option.noConfusion h
          · injection h with h2
            rw [← h2]
  · injection h with h2
    rw [← h2]

/-- `getD` at the length of the left list of an append-singleton. -/
theorem getD_concat_length (l : List Vertex) (x d : Vertex) :
    (l ++ [x]).getD l.length d = x := by
  induction l with
  | nil => rfl
  | cons a l ih => simp [ih]

/-- `getD` below the left length ignores the appended tail. -/
theorem getD_append_left (l l' : List Vertex) (n : Nat) (h : n < l.length) (d : Vertex) :
    (l ++ l').getD n d = l.getD n d := by
  induction l generalizing n with
  | nil => simp at h
  | cons a l ih =>
    cases n with
    | zero => rfl
    | succ n => simpa using ih n (by simpa using h)

/-- `getD` at or past the left length reads the right list. -/
theorem getD_append_right_len (l l' : List Vertex) (n : Nat) (d : Vertex) :
    (l ++ l').getD (l.length + n) d = l'.getD n d := by
  induction l with
  | nil => simp
  | cons a l ih => simpa [Nat.succ_add] using ih

/-- Lengths of `consecPairs`. -/
theorem consecPairs_length {α : Type} : ∀ l : List α, (consecPairs l).length = l.length - 1
  | [] => rfl
  | [_] => rfl
  | a :: b :: rest => by
    have ih := consecPairs_length (b :: rest)
    simp [consecPairs] at ih ⊢
    omega

/-- Lengths of `triangleList`. -/
theorem triangleList_length (w0 : Vertex) :
    ∀ ps : List (Vertex × Vertex), (triangleList w0 ps).length = 3 * ps.length
  | [] => rfl
  | p :: rest => by
    have ih := triangleList_length w0 rest
    simp [triangleList] at ih ⊢
    omega

/-- Length of the expected fan stream. -/
theorem fanSpec_length (ws : List Vertex) (h : 3 ≤ ws.length) :
    (fanSpec ws).length = 3 * (ws.length - 2) := by
  cases ws with
  | nil => simp at h
  | cons w0 tail =>
    simp [fanSpec, triangleList_length, consecPairs_length]

/-- The fan loop from the fourth vertex on: with the first-inserted index
pointing at `w0` and the last stored vertex `wp`, the loop appends exactly
the triangles (w0, wp, w), (w0, w, w'), ... over the remaining transformed
input. -/
theorem appendLoop_fan_phase (tf : Transform) (f : Nat) (w0 : Vertex)
    (rest : List Vertex) :
    ∀ (i : Nat) (arr : List Vertex) (wp : Vertex),
      2 < i → f < arr.length →
      arr.getD f default = w0 → arr.getD (arr.length - 1) default = wp →
      appendLoop .TrianglesFan tf rest i (some f) arr
        = arr ++ triangleList w0 (consecPairs (wp :: rest.map (transformVertex tf))) := by
  induction rest with
  | nil =>
    intro i arr wp _ _ _ _
    simp [appendLoop, consecPairs, triangleList]
  | cons v rest ih =>
    intro i arr wp hi hf hw0 hwp
    rw [appendLoop_cons, dupVertices_fan_big i f hi arr, hw0, hwp]
    have harr2 : (arr ++ [w0, wp] ++ [transformVertex tf v])
        = arr ++ [w0, wp, transformVertex tf v] := by
      simp
    rw [harr2]
    simp only [updateFvii]
    have hlen2 : (arr ++ [w0, wp, transformVertex tf v]).length = arr.length + 3 := by
      simp
    have hf2 : f < (arr ++ [w0, wp, transformVertex tf v]).length := by
      omega
    have hw02 : (arr ++ [w0, wp, transformVertex tf v]).getD f default = w0 := by
      rw [getD_append_left _ _ f hf default, hw0]
    have hwp2 : (arr ++ [w0, wp, transformVertex tf v]).getD
        ((arr ++ [w0, wp, transformVertex tf v]).length - 1) default
          = transformVertex tf v := by
      rw [hlen2]
      have : arr.length + 3 - 1 = arr.length + 2 := by omega
      rw [this, getD_append_right_len]
      rfl
    rw [ih (i + 1) _ (transformVertex tf v) (by omega) hf2 hw02 hwp2]
    simp [consecPairs, triangleList]

/-- The fan loop on a full submission of at least three vertices, over any
prior contents: it appends exactly the expected fan stream of the transformed
input. -/
theorem appendLoop_fan (tf : Transform) (v0 v1 v2 : Vertex)
    (rest arr0 : List Vertex) :
    appendLoop .TrianglesFan tf (v0 :: v1 :: v2 :: rest) 0 none arr0
      = arr0 ++ fanSpec ((v0 :: v1 :: v2 :: rest).map (transformVertex tf)) := by
  rw [appendLoop_cons, dupVertices_fan_small 0 (by omega)]
  simp only [List.append_nil, updateFvii]
  rw [appendLoop_cons, dupVertices_fan_small 1 (by omega)]
  simp only [List.append_nil, updateFvii]
  rw [appendLoop_cons, dupVertices_fan_small 2 (by omega)]
  simp only [List.append_nil, updateFvii]
  have hidx : (arr0 ++ [transformVertex tf v0]).length - 1 = arr0.length := by
    simp
  rw [hidx]
  have hassoc1 : arr0 ++ [transformVertex tf v0] ++ [transformVertex tf v1]
      ++ [transformVertex tf v2]
        = arr0 ++ [transformVertex tf v0, transformVertex tf v1, transformVertex tf v2] := by
    simp
  rw [hassoc1]
  have hf : arr0.length
      < (arr0 ++ [transformVertex tf v0, transformVertex tf v1, transformVertex tf v2]).length := by
    simp
  have hw0 : (arr0 ++ [transformVertex tf v0, transformVertex tf v1,
      transformVertex tf v2]).getD arr0.length default = transformVertex tf v0 := by
    have := getD_append_right_len arr0
      [transformVertex tf v0, transformVertex tf v1, transformVertex tf v2] 0 default
    simpa using this
  have hwp : (arr0 ++ [transformVertex tf v0, transformVertex tf v1,
      transformVertex tf v2]).getD ((arr0 ++ [transformVertex tf v0, transformVertex tf v1,
        transformVertex tf v2]).length - 1) default = transformVertex tf v2 := by
    have hl : (arr0 ++ [transformVertex tf v0, transformVertex tf v1,
        transformVertex tf v2]).length - 1 = arr0.length + 2 := by
      simp
    rw [hl]
    have := getD_append_right_len arr0
      [transformVertex tf v0, transformVertex tf v1, transformVertex tf v2] 2 default
    simpa using this
  rw [appendLoop_fan_phase tf arr0.length (transformVertex tf v0) rest 3 _
    (transformVertex tf v2) (by omega) hf hw0 hwp]
  simp [fanSpec, consecPairs, triangleList]

/-- Length of the strip loop from the fourth vertex on: three stored vertices
per remaining input vertex. -/
theorem appendLoop_strip_length_phase (tf : Transform) (rest : List Vertex) :
    ∀ (i : Nat) (fvii : Option Nat) (arr : List Vertex), 2 < i →
      (appendLoop .TrianglesStrip tf rest i fvii arr).length
        = arr.length + 3 * rest.length := by
  induction rest with
  | nil =>
    intro i fvii arr _
    simp [appendLoop]
  | cons v rest ih =>
    intro i fvii arr hi
    rw [appendLoop_cons, dupVertices_strip_big i hi]
    rw [ih (i + 1) _ _ (by omega)]
    simp
    omega

/-- A TriangleStrip submission of 3 + k input vertices appends exactly
3 + 3k = 3(N − 2) vertices. -/
theorem appendLoop_strip_length (tf : Transform) (v0 v1 v2 : Vertex)
    (rest arr0 : List Vertex) :
    (appendLoop .TrianglesStrip tf (v0 :: v1 :: v2 :: rest) 0 none arr0).length
      = arr0.length + 3 + 3 * rest.length := by
  rw [appendLoop_cons, dupVertices_strip_small 0 (by omega)]
  simp only [List.append_nil]
  rw [appendLoop_cons, dupVertices_strip_small 1 (by omega)]
  simp only [List.append_nil]
  rw [appendLoop_cons, dupVertices_strip_small 2 (by omega)]
  simp only [List.append_nil]
  rw [appendLoop_strip_length_phase tf rest 3 _ _ (by omega)]
  simp

/-! ## Claim theorems -/

/-- C8: the stencil translation tables are not one-to-one: `translateFunction`
sends the two distinct functions `Less` and `Equal` to the same hardware code,
and `translateOperation` sends the two distinct operations `IncrementClamp`
and `DecrementClamp` to the same hardware code. -/
theorem stencil_tables_collide :
    StencilSettings.translateFunction .Less = StencilSettings.translateFunction .Equal
    ∧ StencilSettings.Function.Less ≠ StencilSettings.Function.Equal
    ∧ StencilSettings.translateOperation .IncrementClamp
        = StencilSettings.translateOperation .DecrementClamp
    ∧ StencilSettings.Operation.IncrementClamp ≠ StencilSettings.Operation.DecrementClamp := by
  refine ⟨rfl, by decide, rfl, by decide⟩

/-- C9: `StencilSettings` equality ignores `drawSelf`: two values agreeing on
the five compared fields but differing in `drawSelf` still compare equal
under `==`, and `!=` returns false on them. -/
theorem stencil_eq_ignores_drawSelf (left right : StencilSettings)
    (hop : left.stencilOperation = right.stencilOperation)
    (hfn : left.stencilFunction = right.stencilFunction)
    (href : left.stencilReference = right.stencilReference)
    (haf : left.alphaFunction = right.alphaFunction)
    (har : left.alphaReference = right.alphaReference)
    (hds : left.drawSelf ≠ right.drawSelf) :
    StencilSettings.eq left right = true ∧ StencilSettings.ne left right = false := by
  cases left
  cases right
  simp_all [StencilSettings.eq, StencilSettings.ne]

/-- Witness for C9 at a concrete pair differing only in `drawSelf`. -/
theorem stencil_eq_ignores_drawSelf_witness :
    StencilSettings.eq ⟨.Keep, .Always, 1, .GreaterEqual, 2, true⟩
        ⟨.Keep, .Always, 1, .GreaterEqual, 2, false⟩ = true
    ∧ StencilSettings.ne ⟨.Keep, .Always, 1, .GreaterEqual, 2, true⟩
        ⟨.Keep, .Always, 1, .GreaterEqual, 2, false⟩ = false :=
  stencil_eq_ignores_drawSelf _ _ rfl rfl rfl rfl rfl (by decide)

/-- C1: a LineStrip submission of the N = 2 vertices v0, v1 (identity
transform, fresh cycle) stores the 3 vertices [v0, v0, v1] — 2N − 1, whose
only consecutive pair is the degenerate segment (v0, v0) — not the
2(N − 1) = 2 vertices forming (v0, v1) that the claim states: the
duplication guard `i > 0` duplicates one vertex too early. -/
theorem linestrip_two_vertices_degenerate :
    (submit exBatch [exVertex 1, exVertex 2] .LinesStrip (exStates 0 none)).map
        BatchTarget.vertexArray
      = some [exVertex 1, exVertex 1, exVertex 2]
    ∧ [exVertex 1, exVertex 1, exVertex 2].length
        ≠ 2 * ([exVertex 1, exVertex 2].length - 1) := by
  decide

/-- C2: replaying a cycle during which no view was used onto a target whose
current view (5) differs from its default view (0) leaves the target on its
default view: the view saved at the start of the replay is restored only in
the `m_viewWasUsed` branch, so the claim's "restored in all cases" fails. -/
theorem replay_leaves_default_view :
    afterPlainSubmit.viewWasUsed = false
    ∧ (replay afterPlainSubmit ⟨5, 0, []⟩ (exStates 0 none)).view = 0
    ∧ (replay afterPlainSubmit ⟨5, 0, []⟩ (exStates 0 none)).view ≠ 5 := by
  decide

/-- C4: replaying an empty cycle (no submission since the last clear) is not
a no-op on the target's observable state: the draw it issues is empty
(count 0, no visible output), but the target's view is set to the default
view (0) and never restored to the saved view (5). -/
theorem empty_replay_changes_view :
    exBatch.hasDrawnSomething = false
    ∧ exBatch.vertexArray = []
    ∧ (replay exBatch ⟨5, 0, []⟩ (exStates 0 none)).drawCalls.map DrawCall.count = [0]
    ∧ (replay exBatch ⟨5, 0, []⟩ (exStates 0 none)).view ≠ 5 := by
  decide

/-- C3: the first submission of a cycle does not record the submission's
blend mode: submitting with blend mode 1 over an inherited cache value 0
leaves the cached blend mode at 0, a second submission with the very same
blend mode 1 then fails the blend-mode assert, and replay overlays the stale
cached 0 — not the recorded-at-first-submission value the claim states. -/
theorem first_submission_blend_not_recorded :
    submit exBatch [exVertex 1] .Triangles (exStates 1 none) = some afterBlendOneSubmit
    ∧ (exStates 1 none).blendMode = 1
    ∧ afterBlendOneSubmit.cacheLastBlendMode = 0
    ∧ submit afterBlendOneSubmit [exVertex 2] .Triangles (exStates 1 none) = none
    ∧ (replay afterBlendOneSubmit ⟨0, 0, []⟩ (exStates 1 none)).drawCalls.map
        (fun c => c.states.blendMode) = [0] := by
  decide

/-- C5: a second submission with a different texture handle (9 after 7) does
fail with StateConflict, and repeated submissions with the same handle,
category and blend mode succeed when that blend mode equals the inherited
cache value — but a sequence whose submissions all share texture handle 7,
category Triangles and blend mode 1 still fails on the second submission,
because the blend mode compared against was never recorded from the first
submission; so "never triggers a StateConflict" does not hold. -/
theorem same_state_sequence_still_conflicts :
    submit afterTex7 [exVertex 2] .Triangles (exStates 0 (some 9)) = none
    ∧ submit afterTex7 [exVertex 2] .Triangles (exStates 0 (some 7)) = some afterTex7Twice
    ∧ (submit afterTex7Twice [exVertex 3] .Triangles (exStates 0 (some 7))).isSome = true
    ∧ submit exBatch [exVertex 1] .Triangles (exStates 1 (some 7)) = some afterTex7Blend1
    ∧ submit afterTex7Blend1 [exVertex 2] .Triangles (exStates 1 (some 7)) = none := by
  decide

/-- C6: a TriangleFan submission of at least 3 input vertices appends to the
stream exactly the triangles (v0,v1,v2),(v0,v2,v3),...,(v0,v_N-2,v_N-1) of
the transformed input — 3(N − 2) vertices, every triangle after the first
sharing the transformed first input vertex as apex. -/
theorem fan_decomposition (s s' : BatchTarget) (vs : List Vertex)
    (st : RenderStates) (hsub : submit s vs .TrianglesFan st = some s')
    (hlen : 3 ≤ vs.length) :
    s'.vertexArray = s.vertexArray ++ fanSpec (vs.map (transformVertex st.transform))
    ∧ (fanSpec (vs.map (transformVertex st.transform))).length = 3 * (vs.length - 2) := by
  have hva := submit_vertexArray hsub
  cases vs with
  | nil => simp at hlen
  | cons v0 t0 =>
    cases t0 with
    | nil => simp at hlen
    | cons v1 t1 =>
      cases t1 with
      | nil => simp at hlen
      | cons v2 rest =>
        constructor
        · rw [hva, appendLoop_fan]
        · have h3 : 3 ≤ ((v0 :: v1 :: v2 :: rest).map (transformVertex st.transform)).length := by
            simp
          simpa using fanSpec_length _ h3

/-- Witness for C6: the 4-vertex fan of the claim's scenario, stored as the
6 vertices of the triangles (c0,c1,c2),(c0,c2,c3). -/
theorem fan_decomposition_witness :
    (fanWitnessBatch.vertexArray
        = exBatch.vertexArray
          ++ fanSpec ([exVertex 1, exVertex 2, exVertex 3, exVertex 4].map
              (transformVertex (exStates 0 none).transform))
      ∧ (fanSpec ([exVertex 1, exVertex 2, exVertex 3, exVertex 4].map
          (transformVertex (exStates 0 none).transform))).length
        = 3 * ([exVertex 1, exVertex 2, exVertex 3, exVertex 4].length - 2))
    ∧ fanWitnessBatch.vertexArray
        = [exVertex 1, exVertex 2, exVertex 3, exVertex 1, exVertex 3, exVertex 4] :=
  ⟨fan_decomposition exBatch fanWitnessBatch
      [exVertex 1, exVertex 2, exVertex 3, exVertex 4] (exStates 0 none)
      (by decide) (by decide),
    by decide⟩

/-- C7 counterexample: a degenerate TriangleStrip submission of a single
vertex followed by a 3-vertex TriangleStrip submission in the same cycle
yields the 4-vertex stream [a0, b0, b1, b2] whose first complete triangle
(indices 0, 1, 2) takes index 0 from the first submission and indices 1, 2
from the second — a stored triangle with vertices from both submissions. -/
theorem strip_triangle_spans_submissions :
    submit exBatch [exVertex 1] .TrianglesStrip (exStates 0 none) = some stripA
    ∧ submit stripA [exVertex 2, exVertex 3, exVertex 4] .TrianglesStrip
        (exStates 0 none) = some stripAB
    ∧ stripA.vertexArray.length = 1
    ∧ stripAB.vertexArray.length = 4
    ∧ triangleSpans stripA.vertexArray.length stripAB.vertexArray.length 0 := by
  decide

/-- C7 (amended): for two consecutive TriangleStrip submissions into the same
cycle, provided the stored stream ends on a triangle boundary before the
first of them and the first submission has at least 3 input vertices, no
complete triangle of the resulting stream contains vertices from both
submissions: every triangle lies entirely below or entirely at-or-above the
boundary between the two. -/
theorem strip_submissions_stay_triangle_aligned
    (s s1 s2 : BatchTarget) (vs1 vs2 : List Vertex) (st1 st2 : RenderStates)
    (h1 : submit s vs1 .TrianglesStrip st1 = some s1)
    (_hsecond : submit s1 vs2 .TrianglesStrip st2 = some s2)
    (halign : s.vertexArray.length % 3 = 0)
    (hn1 : 3 ≤ vs1.length) :
    ∀ k : Nat, ¬ triangleSpans s1.vertexArray.length s2.vertexArray.length k := by
  have hva := submit_vertexArray h1
  have hlen1 : s1.vertexArray.length % 3 = 0 := by
    cases vs1 with
    | nil => simp at hn1
    | cons v0 t0 =>
      cases t0 with
      | nil => simp at hn1
      | cons v1 t1 =>
        cases t1 with
        | nil => simp at hn1
        | cons v2 rest =>
          rw [hva, appendLoop_strip_length]
          omega
  intro k
  unfold triangleSpans
  omega

/-- Witness for C7 at two proper 3-vertex strips from a fresh cycle. -/
theorem strip_submissions_stay_triangle_aligned_witness :
    ¬ triangleSpans alignA.vertexArray.length alignAB.vertexArray.length 0 :=
  strip_submissions_stay_triangle_aligned exBatch alignA alignAB
    [exVertex 1, exVertex 2, exVertex 3] [exVertex 4, exVertex 5, exVertex 6]
    (exStates 0 none) (exStates 0 none) (by decide) (by decide) (by decide)
    (by decide) 0

/-- C10: `clear` resets `m_hasDrawnSomething`, nulls the cached texture and
empties the vertex array, but leaves both the pending view declaration
(`viewChanged`) and the view-in-use flag (`m_viewWasUsed`) untouched, so a
view declared or used in a previous cycle still determines the first
submission's view commitment and the replay's view choice after `clear` —
until `clearView` resets both flags. -/
theorem clear_preserves_view_flags (s : BatchTarget) (t : RTarget)
    (vs : List Vertex) (ty : PrimitiveType) (st : RenderStates) :
    (BatchTarget.clear s).hasDrawnSomething = false
    ∧ (BatchTarget.clear s).cachedTexture = none
    ∧ (BatchTarget.clear s).vertexArray = []
    ∧ (BatchTarget.clear s).viewWasUsed = s.viewWasUsed
    ∧ (BatchTarget.clear s).cacheViewChanged = s.cacheViewChanged
    ∧ (submit (BatchTarget.clear s) vs ty st).map BatchTarget.viewWasUsed
        = some (if s.cacheViewChanged then true else s.viewWasUsed)
    ∧ (replay (BatchTarget.clear s) t st).view
        = (if s.viewWasUsed then t.view else t.defaultView)
    ∧ (BatchTarget.clearView (BatchTarget.clear s)).viewWasUsed = false
    ∧ (BatchTarget.clearView (BatchTarget.clear s)).cacheViewChanged = false := by
  refine ⟨rfl, rfl, rfl, rfl, rfl, ?_, ?_, rfl, rfl⟩
  · simp only [submit, BatchTarget.clear]
    cases s.cacheViewChanged <;> simp
  · simp only [replay, BatchTarget.clear]
    cases s.viewWasUsed <;> simp

end SFML
